import Mathlib

/-!
Shallow embedding of the library-management repository's book lifecycle
logic: the Firestore-backed state (books and transactions collections),
the UI transition handlers, and the overdue/due-soon classification.

Conventions of the embedding:
* Timestamps are integers in milliseconds since the epoch (JS `Date.getTime`).
  JS calendar-day normalization (`new Date(y, m, d)` / `setHours(0,0,0,0)`)
  is floor division by `msPerDay`; `setDate(d + k)` adds `k * msPerDay`
  (fixed-length days, no DST in the model).
* `serverTimestamp()` and the client's `new Date()` are both modelled by a
  single `now : Int` parameter of each handler (single-clock model).
* A Firestore document field written with `deleteField()` is absent; one
  written with the literal `null` is present with a null value; the
  three-valued `FsField` keeps that distinction.
* Free-text `notes` strings of transactions are locale-dependent
  presentation (`toLocaleDateString`) and are omitted from the model.
-/

namespace LibSpec

/-- Milliseconds per day, the normalization unit of JS date arithmetic. -/
def msPerDay : Int := 86400000

/-- Calendar day of a timestamp: JS `new Date(y, m, d)` normalization,
i.e. floor division of the raw time by `msPerDay`. -/
def dayOf (t : Int) : Int := Int.fdiv t msPerDay

/-- JS `Math.ceil(a / b)` for integer `a` and positive integer `b`. -/
def ceilDiv (a b : Int) : Int := -(Int.fdiv (-a) b)

/-- JS string-or-default: `s || d`, where the empty string is falsy. -/
def jsOrS (s d : String) : String := if s = "" then d else s

/-- JS option-or-default: `o || d` on a nullable string. -/
def jsOr (o : Option String) (d : String) : String :=
  match o with
  | some s => jsOrS s d
  | none => d

/-- A Firestore document field: absent, present with JS `null`, or a value. -/
inductive FsField (α : Type) : Type where
  | absent : FsField α
  | nullv : FsField α
  | val : α → FsField α
deriving DecidableEq

/-- JS truthiness of a nullable document field (objects are truthy). -/
def FsField.truthy {α : Type} : FsField α → Bool
  | .val _ => true
  | _ => false

/-- `status` field of a book document (src/unnamed/part_003, `Book`). -/
inductive BookStatus : Type where
  | available
  | issued
  | donated_pending_approval
  | donated_approved
  | lost
  | maintenance
  | issue_requested
  | return_requested
deriving DecidableEq

/-- `issueDetails` map of a book document (src/unnamed/part_003). -/
structure IssueDetails : Type where
  userId : String
  userName : String
  issueDate : Int
  dueDate : Option Int
  returnedDate : Option Int
deriving DecidableEq

/-- `donatedBy` map of a book document (src/unnamed/part_003). -/
structure DonatedBy : Type where
  userId : String
  userName : String
  date : Int
deriving DecidableEq

/-- A document of the `books` collection (src/unnamed/part_003, `Book`).
Display-only metadata (cover image, tags, copies, location) is omitted. -/
structure Book : Type where
  id : String
  title : String
  author : String
  isbn : String
  category : Option String
  description : Option String
  status : BookStatus
  issueDetails : FsField IssueDetails
  donatedBy : Option DonatedBy
deriving DecidableEq

/-- `type` field of a transaction document (src/unnamed/part_003,
`Transaction`); the source's `return` type is named `book_return` here
because `return` is reserved in Lean. -/
inductive TxType : Type where
  | issue
  | book_return
  | donate_request
  | donate_approve
  | donate_reject
  | fine_paid
  | renewal
  | issue_request
  | issue_reject
  | return_request
  | return_reject
deriving DecidableEq

/-- A document of the `transactions` collection (src/unnamed/part_003).
`timestamp` is the server-assigned write time; `notes` is omitted. -/
structure Transaction : Type where
  bookId : String
  bookTitle : String
  userId : String
  userName : String
  type : TxType
  timestamp : Int
  dueDate : Option Int
deriving DecidableEq

/-- A user record (src/unnamed/part_003, `User`). -/
inductive UserRole : Type where
  | admin
  | user
deriving DecidableEq

/-- A document of the `users` collection (src/unnamed/part_003, `User`). -/
structure User : Type where
  id : String
  email : Option String
  role : UserRole
  name : Option String
deriving DecidableEq

/-- The visible Firestore state: `books` and `transactions` collections. -/
structure LibraryState : Type where
  books : List Book
  transactions : List Transaction
deriving DecidableEq

/-- `currentUser.name || currentUser.email || 'User'`, the display name
used by the user-side handlers. -/
def userDisplay (u : User) : String := jsOr u.name (jsOr u.email "User")

/-- Lookup of a book document by id (`doc(db, "books", id)`). -/
def getBook (st : LibraryState) (id : String) : Option Book :=
  st.books.find? (fun b => decide (b.id = id))

/-- `updateDoc` on the book with the given id: only that document is
rewritten, all others are untouched.  (Firestore's `updateDoc` fails on a
missing document; here a missing id is a no-op, and the theorems below
always carry the hypothesis that the document exists.) -/
def updateBooks (bs : List Book) (id : String) (f : Book → Book) : List Book :=
  bs.map (fun b => if b.id = id then f b else b)

/-- `deleteDoc` on the book with the given id. -/
def deleteBooks (bs : List Book) (id : String) : List Book :=
  bs.filter (fun b => !(decide (b.id = id)))

/-- Dotted-path update `"issueDetails.dueDate": t` on a book document.
(On an absent or null parent map Firestore would create a partial map,
which this record type cannot express; every handler that issues this
write first guards on `issueDetails` being a truthy map, so that corner
is left as the identity.) -/
def setDueDate (t : Int) : FsField IssueDetails → FsField IssueDetails
  | .val d => .val { d with dueDate := some t }
  | f => f

/-- Outcome of one Firestore write attempt. -/
inductive WriteOutcome : Type where
  | ok
  | fail
deriving DecidableEq

/-- Result surfaced to the actor by a handler: `success` (success toast),
`rejected` (a precondition toast before any write), `failed` (the catch
branch: the primary write threw). -/
inductive OpResult : Type where
  | success
  | rejected
  | failed
deriving DecidableEq

/-- `logTransaction` (defined identically in every tab component): appends
the transaction, and swallows its own failure — `addDoc` runs inside the
helper's own try/catch, which only `console.error`s. -/
def logTransaction (outcome : WriteOutcome) (tx : Transaction)
    (txs : List Transaction) : List Transaction :=
  match outcome with
  | .ok => txs ++ [tx]
  | .fail => txs

/-- The shared shape of every transition handler's
`try { await primaryWrite; await logTransaction(tx) } catch { toast }`
block: if the primary write throws, the catch runs and nothing was
written; if it succeeds, `logTransaction` runs (swallowing its own
failure) and the handler reports success. -/
def runTransition (primary lg : WriteOutcome)
    (applyPrimary : List Book → List Book) (tx : Transaction)
    (st : LibraryState) : LibraryState × OpResult :=
  match primary with
  | .fail => (st, .failed)
  | .ok =>
    (⟨applyPrimary st.books, logTransaction lg tx st.transactions⟩, .success)

/-! ### Overdue / due-soon classification -/

/-- The three classifications an issued book can display. -/
inductive DueClass : Type where
  | overdue
  | due_soon
  | issued
deriving DecidableEq

/-- Classification written from the spec's words: normalize both the due
date and the current date to calendar-day granularity; `overdue` if the
normalized due date is before today; `due_soon` if `0 ≤ (due − today) ≤ 3`
days; otherwise `issued`. -/
def classifySpec (due now : Int) : DueClass :=
  let d := dayOf due - dayOf now
  if d < 0 then .overdue
  else if d ≤ 3 then .due_soon
  else .issued

/-- `isBookOverdue` (src/src/components/user/IssuedBooksTab.tsx:37-47):
an issued book with a truthy due date is overdue when the calendar-day
normalized due date is strictly before the normalized current date. -/
def isBookOverdue (b : Book) (now : Int) : Bool :=
  if b.status = .issued then
    match b.issueDetails with
    | .val d =>
      match d.dueDate with
      | some due => decide (dayOf due < dayOf now)
      | none => false
    | _ => false
  else false

/-- The `diffDays` computation of the issued-books filter
(src/src/components/user/IssuedBooksTab.tsx:194-205): both dates are first
normalized to local midnight, then `Math.ceil` of their difference in
days is taken. -/
def filterDiffDays (due now : Int) : Int :=
  ceilDiv (dayOf due * msPerDay - dayOf now * msPerDay) msPerDay

/-- The issued-books tab's `overdue` filter predicate (`diffDays < 0`). -/
def matchesOverdueFilter (due now : Int) : Bool :=
  decide (filterDiffDays due now < 0)

/-- The issued-books tab's `due_soon` filter predicate
(`diffDays >= 0 && diffDays <= 3`). -/
def matchesDueSoonFilter (due now : Int) : Bool :=
  decide (0 ≤ filterDiffDays due now) && decide (filterDiffDays due now ≤ 3)

/-- The status-pill variants (src/unnamed/part_003, `BookStatusVariant`),
as far as `getStatusDetails` can produce them. -/
inductive PillVariant : Type where
  | available
  | issued
  | overdue
  | due_soon
  | pending_approval
  | issue_requested
  | return_requested
  | lost
  | maintenance
deriving DecidableEq

/-- The variant-selection logic of `getStatusDetails`
(src/src/components/shared/StatusPill.tsx:5-24).  For an issued book with
a truthy `issueDetails` it compares the RAW timestamps — no calendar-day
normalization — and takes `Math.ceil` of the difference in days.  A null
`dueDate` becomes `new Date(null)`, the epoch. -/
def getStatusVariant (b : Book) (now : Int) : PillVariant :=
  if b.status = .issued ∧ b.issueDetails.truthy then
    match b.issueDetails with
    | .val d =>
      let due := match d.dueDate with
        | some t => t
        | none => 0
      let diffDays := ceilDiv (due - now) msPerDay
      if diffDays < 0 then .overdue
      else if diffDays ≤ 3 then .due_soon
      else .issued
    | _ => .issued
  else if b.status = .donated_pending_approval then .pending_approval
  else if b.status = .donated_approved then .available
  else if b.status = .issue_requested then .issue_requested
  else
    match b.status with
    | .available => .available
    | .issued => .issued
    | .return_requested => .return_requested
    | .lost => .lost
    | .maintenance => .maintenance
    | .donated_pending_approval => .pending_approval
    | .donated_approved => .available
    | .issue_requested => .issue_requested

/-! ### Transition handlers

Each handler takes the write outcomes of its primary update and of the
transaction-log append as explicit `WriteOutcome` parameters, and `now`
for the wall clock; everything else is translated statement by statement
from the cited source. -/

/-- `RENEWAL_PERIOD_DAYS` (src/src/components/user/IssuedBooksTab.tsx:18). -/
def RENEWAL_PERIOD_DAYS : Int := 7

/-- The query feeding the issued-books tab
(src/src/components/user/IssuedBooksTab.tsx:69-74): the user's books with
status `issued` or `return_requested`. -/
def booksForUser (st : LibraryState) (uid : String) : List Book :=
  st.books.filter (fun b =>
    (match b.issueDetails with
      | .val d => decide (d.userId = uid)
      | _ => false)
    && (decide (b.status = .issued) || decide (b.status = .return_requested)))

/-- `handleRenewBook` (src/src/components/user/IssuedBooksTab.tsx:102-148).
Looks the book up in the fetched user list; rejects when it or its due
date is missing, or when `isBookOverdue`; otherwise writes
`"issueDetails.dueDate": serverTimestamp()` — the literal source text —
and logs a `renewal` transaction carrying `newDueDate` = current due date
plus `RENEWAL_PERIOD_DAYS` days. -/
def handleRenewBook (currentUser : Option User) (bookId bookTitle : String)
    (now : Int) (primary lg : WriteOutcome) (st : LibraryState) :
    LibraryState × OpResult :=
  match currentUser with
  | none => (st, .rejected)
  | some u =>
    match (booksForUser st u.id).find? (fun b => decide (b.id = bookId)) with
    | none => (st, .rejected)
    | some bookToRenew =>
      match bookToRenew.issueDetails with
      | .val d =>
        match d.dueDate with
        | none => (st, .rejected)
        | some currentDueDate =>
          if isBookOverdue bookToRenew now then (st, .rejected)
          else
            let newDueDate := currentDueDate + RENEWAL_PERIOD_DAYS * msPerDay
            runTransition primary lg
              (fun bs => updateBooks bs bookId (fun b =>
                { b with issueDetails := setDueDate now b.issueDetails }))
              { bookId := bookId, bookTitle := bookTitle, userId := u.id,
                userName := userDisplay u, type := .renewal,
                timestamp := now, dueDate := some newDueDate } st
      | _ => (st, .rejected)

/-- `handleRequestReturn` (src/src/components/user/IssuedBooksTab.tsx:150-180):
sets status to `return_requested` and logs `return_request`. -/
def handleRequestReturn (currentUser : Option User)
    (bookId bookTitle : String) (now : Int) (primary lg : WriteOutcome)
    (st : LibraryState) : LibraryState × OpResult :=
  match currentUser with
  | none => (st, .rejected)
  | some u =>
    runTransition primary lg
      (fun bs => updateBooks bs bookId (fun b =>
        { b with status := .return_requested }))
      { bookId := bookId, bookTitle := bookTitle, userId := u.id,
        userName := userDisplay u, type := .return_request,
        timestamp := now, dueDate := none } st

/-- `handleRequestIssue` (src/src/components/user/BrowseBooksTab.tsx:83-127):
with no check of the stored status, sets status to `issue_requested`,
replaces `issueDetails` with the request map (`dueDate: null`), and logs
`issue_request`. -/
def handleRequestIssue (currentUser : Option User)
    (bookId bookTitle : String) (now : Int) (primary lg : WriteOutcome)
    (st : LibraryState) : LibraryState × OpResult :=
  match currentUser with
  | none => (st, .rejected)
  | some u =>
    let requestDetails : IssueDetails :=
      { userId := u.id, userName := userDisplay u, issueDate := now,
        dueDate := none, returnedDate := none }
    runTransition primary lg
      (fun bs => updateBooks bs bookId (fun b =>
        { b with status := .issue_requested,
                 issueDetails := .val requestDetails }))
      { bookId := bookId, bookTitle := bookTitle, userId := u.id,
        userName := userDisplay u, type := .issue_request,
        timestamp := now, dueDate := none } st

/-- The `disabled` condition of the "Request to Issue" button
(src/src/components/user/BrowseBooksTab.tsx:193). -/
def requestIssueDisabled (currentUser : Option User) (b : Book) : Bool :=
  currentUser.isNone
  || (!(decide (b.status = .available)) && !(decide (b.status = .donated_approved)))

/-- `handleApproveRequest` (src/unnamed/part_001:84-118): guards on a
truthy `issueDetails`, computes the due date as the recorded
`issueDetails.issueDate` (the request timestamp) plus 14 days, sets status
to `issued` plus the dotted-path due-date write, and logs `issue` with the
same due date. -/
def handleApproveRequest (book : Book) (now : Int)
    (primary lg : WriteOutcome) (st : LibraryState) :
    LibraryState × OpResult :=
  match book.issueDetails with
  | .val d =>
    let dueDate := d.issueDate + 14 * msPerDay
    runTransition primary lg
      (fun bs => updateBooks bs book.id (fun b =>
        { b with status := .issued,
                 issueDetails := setDueDate dueDate b.issueDetails }))
      { bookId := book.id, bookTitle := book.title, userId := d.userId,
        userName := d.userName, type := .issue,
        timestamp := now, dueDate := some dueDate } st
  | _ => (st, .rejected)

/-- `handleRejectRequest` (src/unnamed/part_001:120-148): guards on a
truthy `issueDetails`, then writes `status: 'available'` and the literal
`issueDetails: null` — the field stays present with a null value — and
logs `issue_reject`. -/
def handleRejectRequest (book : Book) (now : Int)
    (primary lg : WriteOutcome) (st : LibraryState) :
    LibraryState × OpResult :=
  match book.issueDetails with
  | .val d =>
    runTransition primary lg
      (fun bs => updateBooks bs book.id (fun b =>
        { b with status := .available, issueDetails := .nullv }))
      { bookId := book.id, bookTitle := book.title, userId := d.userId,
        userName := d.userName, type := .issue_reject,
        timestamp := now, dueDate := none } st
  | _ => (st, .rejected)

/-- `handleApproveReturn` (src/src/components/admin/ReturnRequestsTab.tsx:76-104):
guards on a truthy `issueDetails`, writes `status: 'available'` and
`issueDetails: deleteField()` — the field is removed — and logs `return`. -/
def handleApproveReturn (book : Book) (now : Int)
    (primary lg : WriteOutcome) (st : LibraryState) :
    LibraryState × OpResult :=
  match book.issueDetails with
  | .val d =>
    runTransition primary lg
      (fun bs => updateBooks bs book.id (fun b =>
        { b with status := .available, issueDetails := .absent }))
      { bookId := book.id, bookTitle := book.title, userId := d.userId,
        userName := d.userName, type := .book_return,
        timestamp := now, dueDate := none } st
  | _ => (st, .rejected)

/-- `handleRejectReturn` (src/src/components/admin/ReturnRequestsTab.tsx:106-133):
guards on a truthy `issueDetails`, writes only `status: 'issued'`, and
logs `return_reject`. -/
def handleRejectReturn (book : Book) (now : Int)
    (primary lg : WriteOutcome) (st : LibraryState) :
    LibraryState × OpResult :=
  match book.issueDetails with
  | .val d =>
    runTransition primary lg
      (fun bs => updateBooks bs book.id (fun b =>
        { b with status := .issued }))
      { bookId := book.id, bookTitle := book.title, userId := d.userId,
        userName := d.userName, type := .return_reject,
        timestamp := now, dueDate := none } st
  | _ => (st, .rejected)

/-- `handleReturnBook` (src/src/components/admin/BookManagementTab.tsx:182-206),
the admin-direct return: writes `status: 'available'` and
`issueDetails: deleteField()`, and logs `return` with
`book.issueDetails?.userId || 'unknown_user_return'`. -/
def handleReturnBook (book : Book) (now : Int)
    (primary lg : WriteOutcome) (st : LibraryState) :
    LibraryState × OpResult :=
  runTransition primary lg
    (fun bs => updateBooks bs book.id (fun b =>
      { b with status := .available, issueDetails := .absent }))
    { bookId := book.id, bookTitle := book.title,
      userId := (match book.issueDetails with
        | .val d => jsOrS d.userId "unknown_user_return"
        | _ => "unknown_user_return"),
      userName := (match book.issueDetails with
        | .val d => jsOrS d.userName "Unknown User"
        | _ => "Unknown User"),
      type := .book_return, timestamp := now, dueDate := none } st

/-- The `donate_approve` transaction written by `handleApproveDonation`. -/
def donateApproveTx (book : Book) (now : Int) : Transaction :=
  { bookId := book.id, bookTitle := book.title,
    userId := (match book.donatedBy with
      | some dn => jsOrS dn.userId "unknown_donor"
      | none => "unknown_donor"),
    userName := (match book.donatedBy with
      | some dn => jsOrS dn.userName "Unknown Donor"
      | none => "Unknown Donor"),
    type := .donate_approve, timestamp := now, dueDate := none }

/-- `handleApproveDonation` (src/src/components/admin/BookManagementTab.tsx:499-523;
`DonationApprovalTab`): writes only `status: 'available'` and logs
`donate_approve`. -/
def handleApproveDonation (book : Book) (now : Int)
    (primary lg : WriteOutcome) (st : LibraryState) :
    LibraryState × OpResult :=
  runTransition primary lg
    (fun bs => updateBooks bs book.id (fun b =>
      { b with status := .available }))
    (donateApproveTx book now) st

/-- The `donate_reject` transaction written by `handleRejectDonation`. -/
def donateRejectTx (book : Book) (now : Int) : Transaction :=
  { bookId := book.id, bookTitle := book.title,
    userId := (match book.donatedBy with
      | some dn => jsOrS dn.userId "unknown_donor"
      | none => "unknown_donor"),
    userName := (match book.donatedBy with
      | some dn => jsOrS dn.userName "Unknown Donor"
      | none => "Unknown Donor"),
    type := .donate_reject, timestamp := now, dueDate := none }

/-- `handleRejectDonation` (src/src/components/admin/BookManagementTab.tsx:525-550;
`DonationApprovalTab`): `deleteDoc` on the book, then `donate_reject` is
logged still referencing the deleted book's id. -/
def handleRejectDonation (book : Book) (now : Int)
    (primary lg : WriteOutcome) (st : LibraryState) :
    LibraryState × OpResult :=
  runTransition primary lg
    (fun bs => deleteBooks bs book.id)
    (donateRejectTx book now) st

/-- A Firestore write, for stating in which order `handleRejectDonation`
performs its effects. -/
inductive FsOp : Type where
  | update : String → FsOp
  | delete : String → FsOp
  | addTx : TxType → FsOp
deriving DecidableEq

/-- The effect order of `handleRejectDonation`, statement by statement
(src/src/components/admin/BookManagementTab.tsx:533 then 535-542): the
`deleteDoc` is awaited first, the `donate_reject` log append second. -/
def handleRejectDonationOps (book : Book) : List FsOp :=
  [.delete book.id, .addTx .donate_reject]

/-- "the transaction is written before the deletion", formalized over an
effect order: some log-append of `donate_reject` occurs at a strictly
earlier position than some deletion of the given id. -/
def txWrittenBeforeDelete (ops : List FsOp) (id : String) : Prop :=
  ∃ i j, i < j ∧ ops.get? i = some (.addTx .donate_reject)
    ∧ ops.get? j = some (.delete id)

/-- `handleDeleteBook` (src/src/components/admin/BookManagementTab.tsx:105-118):
plain `deleteDoc`, no transaction is logged. -/
def handleDeleteBook (bookId : String) (primary : WriteOutcome)
    (st : LibraryState) : LibraryState × OpResult :=
  match primary with
  | .fail => (st, .failed)
  | .ok => (⟨deleteBooks st.books bookId, st.transactions⟩, .success)

/-- `handleConfirmIssueBook` (src/src/components/admin/BookManagementTab.tsx:120-179),
the admin-direct issue.  `lookup` is the outcome of the `users` document
read: `some (name, email)` when the document exists, `none` when it is
missing or the read failed (both fall back to the default name).  Sets
status `issued`, a fresh `issueDetails` with due date `now + 14` days,
and logs `issue` with that due date. -/
def handleConfirmIssueBook (issuingBook : Option Book)
    (issueToUserId issueToUserName : String)
    (lookup : Option (Option String × Option String)) (now : Int)
    (primary lg : WriteOutcome) (st : LibraryState) :
    LibraryState × OpResult :=
  match issuingBook with
  | none => (st, .rejected)
  | some book =>
    if issueToUserId = "" then (st, .rejected)
    else
      let finalUserName :=
        if issueToUserName = "" then
          match lookup with
          | some (n, e) => jsOr n (jsOr e "User")
          | none => "Unknown User"
        else issueToUserName
      let dueDate := now + 14 * msPerDay
      runTransition primary lg
        (fun bs => updateBooks bs book.id (fun b =>
          { b with status := .issued,
                   issueDetails := .val
                     { userId := issueToUserId, userName := finalUserName,
                       issueDate := now, dueDate := some dueDate,
                       returnedDate := none } }))
        { bookId := book.id, bookTitle := book.title,
          userId := issueToUserId, userName := finalUserName,
          type := .issue, timestamp := now, dueDate := some dueDate } st

/-- One event of the book lifecycle: every modeled transition handler,
with its arguments. -/
inductive Event : Type where
  | requestIssue : Option User → String → String → Event
  | renewBook : Option User → String → String → Event
  | requestReturn : Option User → String → String → Event
  | approveRequest : Book → Event
  | rejectRequest : Book → Event
  | approveReturn : Book → Event
  | rejectReturn : Book → Event
  | returnBook : Book → Event
  | approveDonation : Book → Event
  | rejectDonation : Book → Event
  | confirmIssueBook : Option Book → String → String →
      Option (Option String × Option String) → Event
  | deleteBook : String → Event

/-- Dispatch of one lifecycle event to its handler. -/
def step (e : Event) (now : Int) (primary lg : WriteOutcome)
    (st : LibraryState) : LibraryState × OpResult :=
  match e with
  | .requestIssue u bid btitle => handleRequestIssue u bid btitle now primary lg st
  | .renewBook u bid btitle => handleRenewBook u bid btitle now primary lg st
  | .requestReturn u bid btitle => handleRequestReturn u bid btitle now primary lg st
  | .approveRequest b => handleApproveRequest b now primary lg st
  | .rejectRequest b => handleRejectRequest b now primary lg st
  | .approveReturn b => handleApproveReturn b now primary lg st
  | .rejectReturn b => handleRejectReturn b now primary lg st
  | .returnBook b => handleReturnBook b now primary lg st
  | .approveDonation b => handleApproveDonation b now primary lg st
  | .rejectDonation b => handleRejectDonation b now primary lg st
  | .confirmIssueBook b uid uname lk =>
      handleConfirmIssueBook b uid uname lk now primary lg st
  | .deleteBook bid => handleDeleteBook bid primary st

/-! ### Concrete example records used by the closed theorems -/

/-- A user holding an issued book. -/
def uAlice : User :=
  { id := "u1", email := some "alice@example.com", role := .user,
    name := some "Alice" }

/-- An issued book due on day 2, held by `uAlice`. -/
def bkRenew : Book :=
  { id := "b1", title := "T1", author := "A1", isbn := "i1",
    category := none, description := none, status := .issued,
    issueDetails := .val
      { userId := "u1", userName := "Alice", issueDate := 0,
        dueDate := some (2 * msPerDay), returnedDate := none },
    donatedBy := none }

/-- A store holding only `bkRenew`. -/
def stRenew : LibraryState := ⟨[bkRenew], []⟩

/-- An `issue_requested` book whose request was made at time 0. -/
def bkApprove : Book :=
  { id := "b2", title := "T2", author := "A2", isbn := "i2",
    category := none, description := none, status := .issue_requested,
    issueDetails := .val
      { userId := "u2", userName := "Bob", issueDate := 0,
        dueDate := none, returnedDate := none },
    donatedBy := none }

/-- A store holding only `bkApprove`. -/
def stApprove : LibraryState := ⟨[bkApprove], []⟩

/-- An issued book due one millisecond after midnight of day 3. -/
def bkPill : Book :=
  { id := "b3", title := "T3", author := "A3", isbn := "i3",
    category := none, description := none, status := .issued,
    issueDetails := .val
      { userId := "u3", userName := "Cara", issueDate := 0,
        dueDate := some (3 * msPerDay + 1), returnedDate := none },
    donatedBy := none }

/-- A `donated_pending_approval` book. -/
def bkDon : Book :=
  { id := "b4", title := "T4", author := "A4", isbn := "i4",
    category := none, description := none,
    status := .donated_pending_approval, issueDetails := .absent,
    donatedBy := some { userId := "u4", userName := "Dan", date := 0 } }

/-- A store holding only `bkDon`. -/
def stDon : LibraryState := ⟨[bkDon], []⟩

/-- An `issue_requested` book, input of the reject-request example. -/
def bkReq : Book :=
  { id := "b5", title := "T5", author := "A5", isbn := "i5",
    category := none, description := none, status := .issue_requested,
    issueDetails := .val
      { userId := "u5", userName := "Pat", issueDate := 0,
        dueDate := none, returnedDate := none },
    donatedBy := none }

/-- A store holding only `bkReq`. -/
def stReq : LibraryState := ⟨[bkReq], []⟩

/-- The user holding `bkOverdue`. -/
def uEve : User :=
  { id := "u6", email := none, role := .user, name := some "Eve" }

/-- An issued book one day overdue at time 0. -/
def bkOverdue : Book :=
  { id := "b6", title := "T6", author := "A6", isbn := "i6",
    category := none, description := none, status := .issued,
    issueDetails := .val
      { userId := "u6", userName := "Eve", issueDate := -15 * msPerDay,
        dueDate := some (-msPerDay), returnedDate := none },
    donatedBy := none }

/-- A store holding only `bkOverdue`. -/
def stOverdue : LibraryState := ⟨[bkOverdue], []⟩

/-- A `return_requested` book with full issue details. -/
def bkRet : Book :=
  { id := "b8", title := "T8", author := "A8", isbn := "i8",
    category := some "Fiction", description := some "d8",
    status := .return_requested,
    issueDetails := .val
      { userId := "u8", userName := "Kim", issueDate := 0,
        dueDate := some (14 * msPerDay), returnedDate := none },
    donatedBy := none }

/-- A store holding only `bkRet`. -/
def stRet : LibraryState := ⟨[bkRet], []⟩

/-- A lost book, input of the request-issue example (its status is
neither `available` nor `donated_approved`). -/
def bkLost : Book :=
  { id := "b10", title := "T10", author := "A10", isbn := "i10",
    category := none, description := none, status := .lost,
    issueDetails := .absent, donatedBy := none }

/-- A store holding only `bkLost`. -/
def stLost : LibraryState := ⟨[bkLost], []⟩

/-! ### Helper lemmas -/

/-- Floor division by `msPerDay` agrees with Euclidean division. -/
theorem fdiv_msPerDay (a : Int) : Int.fdiv a msPerDay = a / msPerDay := by
  rw [Int.fdiv_eq_ediv]
  decide

/-- Adding whole days shifts the calendar day by the same amount. -/
theorem dayOf_add_days (t k : Int) : dayOf (t + k * msPerDay) = dayOf t + k := by
  unfold dayOf
  rw [fdiv_msPerDay, fdiv_msPerDay]
  exact Int.add_mul_ediv_right t k (by decide)

/-- Ceiling division of an exact multiple of `msPerDay`. -/
theorem ceilDiv_mul_msPerDay (k : Int) : ceilDiv (k * msPerDay) msPerDay = k := by
  unfold ceilDiv
  rw [fdiv_msPerDay, ← Int.neg_mul, Int.mul_ediv_cancel _ (by decide)]
  exact neg_neg k

/-- The issued-books filter's `diffDays` over normalized dates is the
plain difference of calendar days. -/
theorem filterDiffDays_eq (due now : Int) :
    filterDiffDays due now = dayOf due - dayOf now := by
  unfold filterDiffDays
  rw [← sub_mul, ceilDiv_mul_msPerDay]

/-- `classifySpec` is `overdue` exactly when the normalized due date is
before today. -/
theorem classifySpec_overdue_iff (due now : Int) :
    classifySpec due now = .overdue ↔ dayOf due < dayOf now := by
  simp only [classifySpec]
  split_ifs with h1 h2 <;> simp <;> omega

/-- `classifySpec` is `due_soon` exactly when the calendar-day difference
lies in `[0, 3]`. -/
theorem classifySpec_due_soon_iff (due now : Int) :
    classifySpec due now = .due_soon ↔
      0 ≤ dayOf due - dayOf now ∧ dayOf due - dayOf now ≤ 3 := by
  simp only [classifySpec]
  split_ifs with h1 h2 <;> simp <;> omega

/-- Finding by id after an id-preserving `updateDoc` finds the rewritten
document. -/
theorem find_updateBooks (bs : List Book) (id : String) (f : Book → Book)
    (hf : ∀ b, (f b).id = b.id) :
    (updateBooks bs id f).find? (fun b => decide (b.id = id))
      = (bs.find? (fun b => decide (b.id = id))).map f := by
  induction bs with
  | nil => rfl
  | cons b tl ih =>
    by_cases h : b.id = id
    · rw [updateBooks, List.map_cons,
        List.find?_cons_of_pos _ (by simp [hf, h]),
        List.find?_cons_of_pos _ (by simp [h]), Option.map_some', if_pos h]
    · rw [updateBooks, List.map_cons,
        List.find?_cons_of_neg _ (by simp [h]),
        List.find?_cons_of_neg _ (by simp [h])]
      exact ih

/-- After `deleteDoc` on an id, no document with that id can be found. -/
theorem find_deleteBooks (bs : List Book) (id : String) :
    (deleteBooks bs id).find? (fun b => decide (b.id = id)) = none := by
  rw [List.find?_eq_none]
  intro b hb
  rw [deleteBooks, List.mem_filter] at hb
  simpa using hb.2

/-- Every document surviving an `updateDoc` comes from the old list,
through a rewrite that keeps its id and `donatedBy`. -/
theorem mem_updateBooks_preserve (bs : List Book) (id : String)
    (f : Book → Book)
    (hf : ∀ b, (f b).id = b.id ∧ (f b).donatedBy = b.donatedBy) :
    ∀ b' ∈ updateBooks bs id f,
      ∃ b, b ∈ bs ∧ b'.id = b.id ∧ b'.donatedBy = b.donatedBy := by
  intro b' hb'
  rw [updateBooks, List.mem_map] at hb'
  obtain ⟨b, hb, heq⟩ := hb'
  by_cases h : b.id = id
  · refine ⟨b, hb, ?_⟩
    rw [if_pos h] at heq
    rw [← heq]
    exact hf b
  · refine ⟨b, hb, ?_⟩
    rw [if_neg h] at heq
    rw [← heq]
    exact ⟨rfl, rfl⟩

/-- Every document surviving a `deleteDoc` comes from the old list. -/
theorem mem_deleteBooks_preserve (bs : List Book) (id : String) :
    ∀ b' ∈ deleteBooks bs id,
      ∃ b, b ∈ bs ∧ b'.id = b.id ∧ b'.donatedBy = b.donatedBy := by
  intro b' hb'
  rw [deleteBooks, List.mem_filter] at hb'
  exact ⟨b', hb'.1, rfl, rfl⟩

/-- Every document surviving a `runTransition` comes from the old state
with its id and `donatedBy` intact, provided the primary update
guarantees that. -/
theorem runTransition_preserve (primary lg : WriteOutcome)
    (upd : List Book → List Book) (tx : Transaction) (st : LibraryState)
    (h : ∀ b' ∈ upd st.books,
      ∃ b, b ∈ st.books ∧ b'.id = b.id ∧ b'.donatedBy = b.donatedBy) :
    ∀ b' ∈ (runTransition primary lg upd tx st).1.books,
      ∃ b, b ∈ st.books ∧ b'.id = b.id ∧ b'.donatedBy = b.donatedBy := by
  cases primary with
  | fail => exact fun b' hb' => ⟨b', hb', rfl, rfl⟩
  | ok => exact h

/-! ### Claim theorems -/

/-- C1: the code, evaluated at its failing input.  `bkRenew` is issued
and due on day 2; renewing on day 1 (classification `due_soon`, not
overdue) stores `serverTimestamp()` — the renewal time, day 1 — as the
new due date, while the single appended `renewal` transaction carries
day 9, the current due date plus `RENEWAL_PERIOD_DAYS` = 7 days.  The
stored due date is NOT 7 days after the current due date, contradicting
the claim (and the handler's own dialog, toast and transaction note). -/
theorem C1_renewal_stores_server_time :
    (handleRenewBook (some uAlice) "b1" "T1" msPerDay .ok .ok stRenew).1
      = ⟨[{ bkRenew with
            issueDetails := .val ⟨"u1", "Alice", 0, some msPerDay, none⟩ }],
         [{ bookId := "b1", bookTitle := "T1", userId := "u1",
            userName := "Alice", type := .renewal, timestamp := msPerDay,
            dueDate := some (9 * msPerDay) }]⟩
    ∧ (9 * msPerDay : Int) = 2 * msPerDay + RENEWAL_PERIOD_DAYS * msPerDay
    ∧ msPerDay ≠ 2 * msPerDay + RENEWAL_PERIOD_DAYS * msPerDay
    ∧ classifySpec (2 * msPerDay) msPerDay = .due_soon := by
  refine ⟨?_, by decide, by decide, by decide⟩
  decide

/-- C7: failure behaviour shared by every transition handler (each is an
instance of `runTransition`): a failed primary write leaves the whole
state unchanged and surfaces the failure with no transaction logged;
a failed log append after a successful primary write keeps the primary
effect, loses only the transaction, and still reports success; when both
succeed, exactly one transaction is appended. -/
theorem C7_failure_atomicity (lg : WriteOutcome)
    (upd : List Book → List Book) (tx : Transaction) (st : LibraryState) :
    runTransition .fail lg upd tx st = (st, .failed)
    ∧ (runTransition .ok .fail upd tx st).1.books = upd st.books
    ∧ (runTransition .ok .fail upd tx st).1.transactions = st.transactions
    ∧ (runTransition .ok .fail upd tx st).2 = .success
    ∧ (runTransition .ok .ok upd tx st).1.transactions
        = st.transactions ++ [tx] :=
  ⟨rfl, rfl, rfl, rfl, rfl⟩

/-- C2, counterexample: approving `bkApprove` (requested at time 0) five
days later stores a due date of day 14 — `issueDetails.issueDate` plus 14
days — which is not the approval time plus 14 days (day 19), so the
claim's "that due date equals the approval time plus 14 days" is false. -/
theorem C2_counterexample :
    getBook (handleApproveRequest bkApprove (5 * msPerDay) .ok .ok stApprove).1 "b2"
      = some { bkApprove with
               status := .issued,
               issueDetails := .val ⟨"u2", "Bob", 0, some (14 * msPerDay), none⟩ }
    ∧ (14 * msPerDay : Int) ≠ 5 * msPerDay + 14 * msPerDay := by
  refine ⟨?_, by decide⟩
  decide

/-- C2, amended: approving an `issue_requested` book with `issueDetails`
present sets status to `issued`, stores a due date of exactly
`issueDetails.issueDate` (the request timestamp) + 14 days, and logs one
`issue` transaction carrying that same due date; that due date equals the
approval time plus 14 days only when the approval happens at the request
timestamp. -/
theorem C2_approve_request (book : Book) (d : IssueDetails)
    (st : LibraryState) (now : Int)
    (hst : getBook st book.id = some book)
    (hd : book.issueDetails = .val d) :
    getBook (handleApproveRequest book now .ok .ok st).1 book.id
      = some { book with
               status := .issued,
               issueDetails := .val { d with dueDate := some (d.issueDate + 14 * msPerDay) } }
    ∧ (handleApproveRequest book now .ok .ok st).1.transactions
        = st.transactions ++
          [{ bookId := book.id, bookTitle := book.title, userId := d.userId,
             userName := d.userName, type := .issue, timestamp := now,
             dueDate := some (d.issueDate + 14 * msPerDay) }]
    ∧ (handleApproveRequest book now .ok .ok st).2 = .success := by
  rw [handleApproveRequest, hd]
  refine ⟨?_, rfl, rfl⟩
  have hfind := find_updateBooks st.books book.id
    (fun b => { b with
                status := BookStatus.issued,
                issueDetails := setDueDate (d.issueDate + 14 * msPerDay) b.issueDetails })
    (fun b => rfl)
  show (updateBooks st.books book.id _).find? (fun b => decide (b.id = book.id)) = _
  rw [hfind,
    show st.books.find? (fun b => decide (b.id = book.id)) = some book from hst,
    Option.map_some']
  simp [hd, setDueDate]

/-- C2, witness for `C2_approve_request` at the concrete store
`stApprove`. -/
theorem C2_approve_request_witness :
    (handleApproveRequest bkApprove 0 .ok .ok stApprove).2 = .success :=
  (C2_approve_request bkApprove ⟨"u2", "Bob", 0, none, none⟩ stApprove 0
    (by decide) rfl).2.2

/-- C3, counterexample: `bkPill` is issued with a due timestamp one
millisecond past midnight of day 3, so its calendar-day-normalized due
date is exactly today+3 and the claimed rule classifies it `due_soon`;
but the status pill's `getStatusDetails` compares RAW timestamps with
`Math.ceil` (no normalization) and classifies it `issued` — the
classification is not day-normalized in every place it is computed. -/
theorem C3_counterexample :
    getStatusVariant bkPill 0 = .issued
    ∧ classifySpec (3 * msPerDay + 1) 0 = .due_soon
    ∧ bkPill.status = .issued
    ∧ bkPill.issueDetails
        = .val ⟨"u3", "Cara", 0, some (3 * msPerDay + 1), none⟩ := by
  refine ⟨?_, by decide, rfl, rfl⟩
  decide

/-- C3, amended: in the issued-books tab the classification is
day-normalized as claimed — for an issued book with a due date,
`isBookOverdue` holds exactly when the spec classification is `overdue`,
the tab's overdue and due-soon filters agree with the spec classification
for every due timestamp and current time, and a due date exactly today+3
classifies `due_soon`, today+4 `issued`, today-1 `overdue`; the status
pill (`getStatusDetails`), however, compares raw timestamps with
`Math.ceil` and can disagree when time-of-day differs. -/
theorem C3_issued_tab_classification (b : Book) (d : IssueDetails)
    (due now : Int) (hb : b.status = .issued)
    (hd : b.issueDetails = .val d) (hdue : d.dueDate = some due) :
    (isBookOverdue b now = true ↔ classifySpec due now = .overdue)
    ∧ (∀ t n : Int, matchesOverdueFilter t n = true ↔ classifySpec t n = .overdue)
    ∧ (∀ t n : Int, matchesDueSoonFilter t n = true ↔ classifySpec t n = .due_soon)
    ∧ (∀ n : Int, classifySpec (n + 3 * msPerDay) n = .due_soon)
    ∧ (∀ n : Int, classifySpec (n + 4 * msPerDay) n = .issued)
    ∧ (∀ n : Int, classifySpec (n - msPerDay) n = .overdue) := by
  refine ⟨?_, ?_, ?_, ?_, ?_, ?_⟩
  · rw [isBookOverdue, if_pos hb]
    simp only [hd, hdue, classifySpec_overdue_iff, decide_eq_true_iff]
  · intro t n
    rw [matchesOverdueFilter, filterDiffDays_eq, classifySpec_overdue_iff,
      decide_eq_true_iff]
    omega
  · intro t n
    rw [matchesDueSoonFilter, filterDiffDays_eq, classifySpec_due_soon_iff,
      Bool.and_eq_true, decide_eq_true_iff, decide_eq_true_iff]
  · intro n
    rw [classifySpec_due_soon_iff, dayOf_add_days]
    omega
  · intro n
    have h3 : dayOf (n + 4 * msPerDay) - dayOf n = 4 := by
      rw [dayOf_add_days]; omega
    rw [classifySpec]
    simp only [h3]
    decide
  · intro n
    rw [classifySpec_overdue_iff,
      show n - msPerDay = n + (-1) * msPerDay by ring, dayOf_add_days]
    omega

/-- C3, witness for `C3_issued_tab_classification` at the overdue example
book `bkOverdue`. -/
theorem C3_issued_tab_classification_witness :
    isBookOverdue bkOverdue 0 = true ↔ classifySpec (-msPerDay) 0 = .overdue :=
  (C3_issued_tab_classification bkOverdue ⟨"u6", "Eve", -15 * msPerDay,
    some (-msPerDay), none⟩ (-msPerDay) 0 rfl rfl rfl).1

/-- C4, counterexample: in `handleRejectDonation`'s effect order the
`deleteDoc` is awaited first and the `donate_reject` append second, so at
the concrete pending donation `bkDon` it is false that the transaction is
written before the deletion is performed. -/
theorem C4_counterexample :
    handleRejectDonationOps bkDon = [.delete "b4", .addTx .donate_reject]
    ∧ ¬ txWrittenBeforeDelete (handleRejectDonationOps bkDon) "b4" := by
  refine ⟨rfl, ?_⟩
  rintro ⟨i, j, hij, hi, hj⟩
  rcases i with _ | _ | i
  · exact absurd hi (by decide)
  · rcases j with _ | _ | j
    · omega
    · omega
    · rw [show (handleRejectDonationOps bkDon).get? (j + 2) = none from rfl] at hj
      exact Option.noConfusion hj
  · rw [show (handleRejectDonationOps bkDon).get? (i + 2) = none from rfl] at hi
    exact Option.noConfusion hi

/-- C4, amended: rejecting a `donated_pending_approval` book deletes the
record and still appends one `donate_reject` transaction referencing the
deleted book's id — but the deletion is performed first and the
transaction is written after it. -/
theorem C4_reject_donation (book : Book) (now : Int) (st : LibraryState) :
    getBook (handleRejectDonation book now .ok .ok st).1 book.id = none
    ∧ (handleRejectDonation book now .ok .ok st).1.transactions
        = st.transactions ++ [donateRejectTx book now]
    ∧ (donateRejectTx book now).bookId = book.id
    ∧ handleRejectDonationOps book = [.delete book.id, .addTx .donate_reject] := by
  refine ⟨?_, rfl, rfl, rfl⟩
  exact find_deleteBooks st.books book.id

/-- C5, counterexample: rejecting the issue request on `bkReq` writes the
literal `issueDetails: null` — the field is still present with a null
value, not removed — while the book's status returns to `available`; so
it is false that every operation moving a book back to `available`
removes `issueDetails` entirely. -/
theorem C5_counterexample :
    getBook (handleRejectRequest bkReq 0 .ok .ok stReq).1 "b5"
      = some { bkReq with status := .available, issueDetails := .nullv }
    ∧ (FsField.nullv : FsField IssueDetails) ≠ .absent := by
  refine ⟨?_, by decide⟩
  decide

/-- C5, amended: approving a return and the admin-direct return remove
`issueDetails` entirely (`deleteField()`, the field becomes absent) while
setting status to `available`; rejecting an issue request also moves the
book to `available` but merely sets `issueDetails` to null, leaving the
field present with a null value. -/
theorem C5_clear_behavior (book : Book) (d : IssueDetails)
    (st : LibraryState) (now : Int)
    (hst : getBook st book.id = some book)
    (hd : book.issueDetails = .val d) :
    getBook (handleApproveReturn book now .ok .ok st).1 book.id
      = some { book with status := .available, issueDetails := .absent }
    ∧ getBook (handleReturnBook book now .ok .ok st).1 book.id
        = some { book with status := .available, issueDetails := .absent }
    ∧ getBook (handleRejectRequest book now .ok .ok st).1 book.id
        = some { book with status := .available, issueDetails := .nullv } := by
  refine ⟨?_, ?_, ?_⟩
  · rw [handleApproveReturn, hd]
    have hfind := find_updateBooks st.books book.id
      (fun b => { b with
                  status := BookStatus.available,
                  issueDetails := FsField.absent })
      (fun b => rfl)
    show (updateBooks st.books book.id _).find? (fun b => decide (b.id = book.id)) = _
    rw [hfind,
      show st.books.find? (fun b => decide (b.id = book.id)) = some book from hst,
      Option.map_some']
  · rw [handleReturnBook]
    have hfind := find_updateBooks st.books book.id
      (fun b => { b with
                  status := BookStatus.available,
                  issueDetails := FsField.absent })
      (fun b => rfl)
    show (updateBooks st.books book.id _).find? (fun b => decide (b.id = book.id)) = _
    rw [hfind,
      show st.books.find? (fun b => decide (b.id = book.id)) = some book from hst,
      Option.map_some']
  · rw [handleRejectRequest, hd]
    have hfind := find_updateBooks st.books book.id
      (fun b => { b with
                  status := BookStatus.available,
                  issueDetails := FsField.nullv })
      (fun b => rfl)
    show (updateBooks st.books book.id _).find? (fun b => decide (b.id = book.id)) = _
    rw [hfind,
      show st.books.find? (fun b => decide (b.id = book.id)) = some book from hst,
      Option.map_some']

/-- C5, witness for `C5_clear_behavior` at the concrete return-requested
book `bkRet`. -/
theorem C5_clear_behavior_witness :
    getBook (handleApproveReturn bkRet 0 .ok .ok stRet).1 "b8"
      = some { bkRet with status := .available, issueDetails := .absent } :=
  (C5_clear_behavior bkRet ⟨"u8", "Kim", 0, some (14 * msPerDay), none⟩
    stRet 0 (by decide) rfl).1

/-- C6: when the book found in the user's issued list is classified
`overdue` (an issued book whose normalized due date is before today), the
renewal handler returns before any write: the state — stored due date and
transaction log — is unchanged whatever the write outcomes would have
been, and no `renewal` transaction is appended. -/
theorem C6_overdue_renewal_rejected (u : User) (bookId bookTitle : String)
    (b : Book) (d : IssueDetails) (due now : Int) (st : LibraryState)
    (primary lg : WriteOutcome)
    (hfind : (booksForUser st u.id).find? (fun x => decide (x.id = bookId)) = some b)
    (hd : b.issueDetails = .val d) (hdue : d.dueDate = some due)
    (hstatus : b.status = .issued)
    (hclass : classifySpec due now = .overdue) :
    handleRenewBook (some u) bookId bookTitle now primary lg st = (st, .rejected) := by
  have hover : isBookOverdue b now = true := by
    rw [isBookOverdue, if_pos hstatus]
    simp only [hd, hdue, decide_eq_true_iff]
    exact (classifySpec_overdue_iff due now).mp hclass
  rw [handleRenewBook, hfind]
  simp only [hd, hdue, hover, if_pos]

/-- C6, witness for `C6_overdue_renewal_rejected` at the concrete
overdue book `bkOverdue`. -/
theorem C6_overdue_renewal_rejected_witness :
    handleRenewBook (some uEve) "b6" "T6" 0 .ok .ok stOverdue
      = (stOverdue, .rejected) :=
  C6_overdue_renewal_rejected uEve "b6" "T6" bkOverdue
    ⟨"u6", "Eve", -15 * msPerDay, some (-msPerDay), none⟩ (-msPerDay) 0
    stOverdue .ok .ok (by decide) rfl rfl rfl (by decide)

/-- C8: rejecting a return request on a `return_requested` book with
`issueDetails` present writes only `status: 'issued'` — the stored record
afterwards is the old record with just the status replaced, so every
field of `issueDetails` and every other book field is retained — and one
`return_reject` transaction is appended. -/
theorem C8_reject_return_frame (b : Book) (d : IssueDetails)
    (st : LibraryState) (now : Int)
    (hst : getBook st b.id = some b)
    (_hstatus : b.status = .return_requested)
    (hd : b.issueDetails = .val d) :
    getBook (handleRejectReturn b now .ok .ok st).1 b.id
      = some { b with status := .issued }
    ∧ ({ b with status := .issued } : Book).issueDetails = .val d
    ∧ (handleRejectReturn b now .ok .ok st).1.transactions
        = st.transactions ++
          [{ bookId := b.id, bookTitle := b.title, userId := d.userId,
             userName := d.userName, type := .return_reject,
             timestamp := now, dueDate := none }]
    ∧ (handleRejectReturn b now .ok .ok st).2 = .success := by
  rw [handleRejectReturn, hd]
  refine ⟨?_, rfl, rfl, rfl⟩
  have hfind := find_updateBooks st.books b.id
    (fun x => { x with status := BookStatus.issued })
    (fun x => rfl)
  show (updateBooks st.books b.id _).find? (fun x => decide (x.id = b.id)) = _
  rw [hfind,
    show st.books.find? (fun x => decide (x.id = b.id)) = some b from hst,
    Option.map_some', hd]

/-- C8, witness for `C8_reject_return_frame` at the concrete
return-requested book `bkRet`. -/
theorem C8_reject_return_frame_witness :
    (handleRejectReturn bkRet 0 .ok .ok stRet).2 = .success :=
  (C8_reject_return_frame bkRet ⟨"u8", "Kim", 0, some (14 * msPerDay), none⟩
    stRet 0 (by decide) rfl rfl).2.2.2

/-- C10: the user request-issue transition performs no check of the
stored status — for a stored book of ANY status it sets
`issue_requested`, replaces `issueDetails` with the requesting user's id
and name, the request timestamp as `issueDate` and a null `dueDate`, and
appends one `issue_request` transaction; the "not already
requested/issued" precondition lives only in the UI `disabled` flag,
which is set whenever the status is neither `available` nor
`donated_approved`. -/
theorem C10_request_issue_unconditional (u : User) (b : Book)
    (st : LibraryState) (now : Int) (hst : getBook st b.id = some b) :
    getBook (handleRequestIssue (some u) b.id b.title now .ok .ok st).1 b.id
      = some { b with
               status := .issue_requested,
               issueDetails := .val ⟨u.id, userDisplay u, now, none, none⟩ }
    ∧ (handleRequestIssue (some u) b.id b.title now .ok .ok st).1.transactions
        = st.transactions ++
          [{ bookId := b.id, bookTitle := b.title, userId := u.id,
             userName := userDisplay u, type := .issue_request,
             timestamp := now, dueDate := none }]
    ∧ (handleRequestIssue (some u) b.id b.title now .ok .ok st).2 = .success
    ∧ (b.status ≠ .available → b.status ≠ .donated_approved →
        requestIssueDisabled (some u) b = true) := by
  refine ⟨?_, rfl, rfl, ?_⟩
  · rw [handleRequestIssue]
    have hfind := find_updateBooks st.books b.id
      (fun x => { x with
                  status := BookStatus.issue_requested,
                  issueDetails := FsField.val
                    ⟨u.id, userDisplay u, now, none, none⟩ })
      (fun x => rfl)
    show (updateBooks st.books b.id _).find? (fun x => decide (x.id = b.id)) = _
    rw [hfind,
      show st.books.find? (fun x => decide (x.id = b.id)) = some b from hst,
      Option.map_some']
  · intro h1 h2
    rw [requestIssueDisabled]
    simp [h1, h2]

/-- C10, witness for `C10_request_issue_unconditional` at the lost book
`bkLost`: the transition fires even on a lost book, and the UI button for
it is disabled. -/
theorem C10_request_issue_unconditional_witness :
    requestIssueDisabled (some uAlice) bkLost = true :=
  (C10_request_issue_unconditional uAlice bkLost stLost 0 (by decide)).2.2.2
    (by decide) (by decide)

/-- Every modeled lifecycle event leaves the `donatedBy` of every
surviving book document unchanged: no handler's write ever touches the
field, and the only events that lose it delete the whole record. -/
theorem step_preserves_donatedBy (e : Event) (now : Int)
    (primary lg : WriteOutcome) (st : LibraryState) :
    ∀ b' ∈ (step e now primary lg st).1.books,
      ∃ b, b ∈ st.books ∧ b'.id = b.id ∧ b'.donatedBy = b.donatedBy := by
  have hid : ∀ b' ∈ st.books,
      ∃ b, b ∈ st.books ∧ b'.id = b.id ∧ b'.donatedBy = b.donatedBy :=
    fun b' hb' => ⟨b', hb', rfl, rfl⟩
  cases e <;>
    simp only [step, handleRequestIssue, handleRenewBook, handleRequestReturn,
      handleApproveRequest, handleRejectRequest, handleApproveReturn,
      handleRejectReturn, handleReturnBook, handleApproveDonation,
      handleRejectDonation, handleConfirmIssueBook, handleDeleteBook] <;>
    (repeat' split) <;>
    first
      | exact hid
      | exact mem_deleteBooks_preserve st.books _
      | (refine runTransition_preserve primary lg _ _ st ?_
         first
           | exact mem_deleteBooks_preserve st.books _
           | (refine mem_updateBooks_preserve st.books _ _ ?_
              exact fun x => ⟨rfl, rfl⟩))

/-- C9: approving a pending donation rewrites the stored record with only
its status replaced by `available` — `donatedBy`, set at donation
submission, is syntactically untouched — logs one `donate_approve`
transaction, and (last conjunct) no modeled lifecycle event ever changes
the `donatedBy` of a surviving book record. -/
theorem C9_donatedBy_retained (book : Book) (st : LibraryState) (now : Int)
    (hst : getBook st book.id = some book) :
    getBook (handleApproveDonation book now .ok .ok st).1 book.id
      = some { book with status := .available }
    ∧ ({ book with status := .available } : Book).donatedBy = book.donatedBy
    ∧ (handleApproveDonation book now .ok .ok st).1.transactions
        = st.transactions ++ [donateApproveTx book now]
    ∧ (∀ (e : Event) (n : Int) (p l : WriteOutcome) (s : LibraryState),
        ∀ b2 ∈ (step e n p l s).1.books,
          ∃ b, b ∈ s.books ∧ b2.id = b.id ∧ b2.donatedBy = b.donatedBy) := by
  refine ⟨?_, rfl, rfl, fun e n p l s => step_preserves_donatedBy e n p l s⟩
  rw [handleApproveDonation]
  have hfind := find_updateBooks st.books book.id
    (fun x => { x with status := BookStatus.available })
    (fun x => rfl)
  show (updateBooks st.books book.id _).find? (fun x => decide (x.id = book.id)) = _
  rw [hfind,
    show st.books.find? (fun x => decide (x.id = book.id)) = some book from hst,
    Option.map_some']

/-- C9, witness for `C9_donatedBy_retained` at the concrete pending
donation `bkDon`. -/
theorem C9_donatedBy_retained_witness :
    getBook (handleApproveDonation bkDon 0 .ok .ok stDon).1 "b4"
      = some { bkDon with status := .available } :=
  (C9_donatedBy_retained bkDon stDon 0 (by decide)).1

end LibSpec
